import Mathlib

/-!
Verification of the toll-rate pipeline (`task2.py`).

The repository is a pandas pipeline over in-memory tables.  We embed it
shallowly: a DataFrame of segment records is a `List SegmentRecord`,
distances are rationals (the Python floats carry exact decimal literals in
every scenario we examine), `datetime.time` values are seconds since
midnight, and a raised pandas exception is `Option.none`.  A float `NaN`
threshold (mean of an empty selection) is modelled as `Option ℚ = none`,
with comparisons against it false, exactly as IEEE comparisons with NaN are.
-/

/-- One row of the input table: a directed measured hop. -/
structure SegmentRecord where
  id_start : Int
  id_end : Int
  distance : ℚ
deriving DecidableEq

/-- Sum of the distances of all records with the given ordered
`(id_start, id_end)` pair; `0` when no record matches (the pivot table's
`aggfunc='sum'` together with `fill_value=0`). -/
def observed (records : List SegmentRecord) (a b : Int) : ℚ :=
  ((records.filter fun r => r.id_start == a && r.id_end == b).map
    (fun r => r.distance)).sum

/-- Insert into a sorted list, keeping it sorted (ascending). -/
def insertSorted (a : Int) : List Int → List Int
  | [] => [a]
  | b :: l => if a ≤ b then a :: b :: l else b :: insertSorted a l

/-- Sort a list of ids ascending, as the pivot table sorts its labels. -/
def sortIds (l : List Int) : List Int :=
  l.foldr insertSorted []

/-- The pivot table's index: the distinct `id_start` values, sorted. -/
def idStarts (records : List SegmentRecord) : List Int :=
  sortIds (records.map (fun r => r.id_start)).dedup

/-- The pivot table's columns: the distinct `id_end` values, sorted. -/
def idEnds (records : List SegmentRecord) : List Int :=
  sortIds (records.map (fun r => r.id_end)).dedup

/-- A distance matrix: its (sorted) id labels and its entries. -/
structure DistanceMatrix where
  ids : List Int
  entry : Int → Int → ℚ

/-- `calculate_distance_matrix` of `task2.py`.

The code builds the pivot table `P` (index the `id_start` labels, columns
the `id_end` labels, summed distances, missing cells `0`) and returns
`P + P.T - 2 * P.values.diagonal()`.

* When the two label sets coincide, `P` and `P.T` align perfectly; the
  diagonal array `diag[j] = P[j][j]` is subtracted column-wise, so cell
  `(a, b)` holds `P[a][b] + P[b][a] - 2 * P[b][b]`.
* When they differ, `P + P.T` takes the union of the labels, which is
  strictly larger than `min(|index|, |columns|)`, the length of the numpy
  diagonal; subtracting the diagonal array then raises a pandas
  `ValueError` (length mismatch).  Modelled as `none`. -/
def calculate_distance_matrix (records : List SegmentRecord) :
    Option DistanceMatrix :=
  if idStarts records = idEnds records then
    some { ids := idStarts records
           entry := fun a b =>
             observed records a b + observed records b a
               - 2 * observed records b b }
  else
    none

/-- The matrix cell `(a, b)` produced by `calculate_distance_matrix`,
`none` when the call raises. -/
def entryAt (records : List SegmentRecord) (a b : Int) : Option ℚ :=
  (calculate_distance_matrix records).map fun m => m.entry a b

/-- `unroll_distance_matrix` of `task2.py`: `stack()` the matrix into
`(id_start, id_end, distance)` rows — row-major over the matrix's own label
order — then drop the rows with `id_start == id_end`. -/
def unroll_distance_matrix (m : DistanceMatrix) : List SegmentRecord :=
  ((m.ids.flatMap fun a => m.ids.map fun b =>
      SegmentRecord.mk a b (m.entry a b)).filter
    fun r => r.id_start != r.id_end)

/-- The composition `unroll_distance_matrix ∘ calculate_distance_matrix`,
`none` when the matrix construction raises. -/
def unrollBuild (records : List SegmentRecord) :
    Option (List SegmentRecord) :=
  (calculate_distance_matrix records).map unroll_distance_matrix

/-- The rows whose `id_start` equals the reference id. -/
def ref_rows (df : List SegmentRecord) (reference_id : Int) :
    List SegmentRecord :=
  df.filter fun r => r.id_start == reference_id

/-- `Series.mean()`: `none` (float `NaN`) on an empty selection. -/
def mean_distance (rows : List SegmentRecord) : Option ℚ :=
  if rows.isEmpty then none
  else some (((rows.map fun r => r.distance).sum) / (rows.length : ℚ))

/-- `threshold ≤ x`, false when the threshold is `NaN`. -/
def nanLow : Option ℚ → ℚ → Bool
  | none, _ => false
  | some t, x => decide (t ≤ x)

/-- `x ≤ threshold`, false when the threshold is `NaN`. -/
def nanHigh : ℚ → Option ℚ → Bool
  | _, none => false
  | x, some t => decide (x ≤ t)

/-- `find_ids_within_ten_percentage_threshold` of `task2.py`: the mean
distance of the rows whose `id_start` is the reference id gives thresholds
`0.9 * mean` and `1.1 * mean`; the whole table is filtered to the rows whose
`distance` lies between them (comparisons with a `NaN` mean are false). -/
def find_ids_within_ten_percentage_threshold (df : List SegmentRecord)
    (reference_id : Int) : List SegmentRecord :=
  let reference_avg_distance := mean_distance (ref_rows df reference_id)
  let threshold_min := reference_avg_distance.map fun m => (9 / 10 : ℚ) * m
  let threshold_max := reference_avg_distance.map fun m => (11 / 10 : ℚ) * m
  df.filter fun r =>
    nanLow threshold_min r.distance && nanHigh r.distance threshold_max

/-- The reference id's average distance as a rational (meaningful when the
reference id occurs as an `id_start`). -/
def refAvg (df : List SegmentRecord) (reference_id : Int) : ℚ :=
  ((ref_rows df reference_id).map fun r => r.distance).sum
    / ((ref_rows df reference_id).length : ℚ)

/-- A segment row annotated with the five per-vehicle toll columns. -/
structure TollRow where
  id_start : Int
  id_end : Int
  distance : ℚ
  moto : ℚ
  car : ℚ
  rv : ℚ
  bus : ℚ
  truck : ℚ
deriving DecidableEq

/-- `calculate_toll_rate` of `task2.py`: each vehicle-type column is the
row's distance times the fixed coefficient
`{moto: 0.8, car: 1.2, rv: 1.5, bus: 2.2, truck: 3.6}`. -/
def calculate_toll_rate (df : List SegmentRecord) : List TollRow :=
  df.map fun r =>
    { id_start := r.id_start
      id_end := r.id_end
      distance := r.distance
      moto := r.distance * (8 / 10)
      car := r.distance * (12 / 10)
      rv := r.distance * (15 / 10)
      bus := r.distance * (22 / 10)
      truck := r.distance * (36 / 10) }

/-- A toll row further carrying the day/time columns.  Times are seconds
since midnight (`datetime.time` compares lexicographically on
(hour, minute, second), i.e. by this number). -/
structure TimedTollRow where
  id_start : Int
  id_end : Int
  distance : ℚ
  moto : ℚ
  car : ℚ
  rv : ℚ
  bus : ℚ
  truck : ℚ
  start_day : String
  start_time : Nat
  end_day : String
  end_time : Nat
deriving DecidableEq

/-- One entry of the `time_ranges` table of `task2.py`.  (`finish` stands
for the dictionary key `'end'`, a keyword in Lean.) -/
structure TimeRange where
  start : Nat
  finish : Nat
  weekday_factor : ℚ
  weekend_factor : ℚ

/-- The three brackets of `task2.py`: `00:00:00`–`10:00:00`,
`10:00:00`–`18:00:00` and `18:00:00`–`23:59:59`. -/
def time_ranges : List TimeRange :=
  [ { start := 0, finish := 36000, weekday_factor := 8 / 10, weekend_factor := 7 / 10 }
  , { start := 36000, finish := 64800, weekday_factor := 12 / 10, weekend_factor := 7 / 10 }
  , { start := 64800, finish := 86399, weekday_factor := 8 / 10, weekend_factor := 7 / 10 } ]

/-- `df['start_day'].isin(['Saturday', 'Sunday'])` for one row. -/
def isWeekend (day : String) : Bool :=
  day == "Saturday" || day == "Sunday"

/-- One pass of the loop body of `calculate_time_based_toll_rates` on one
row: when the row's `[start_time, end_time]` span satisfies the bracket's
mask (`start_time >= start` and `end_time <= end`, both inclusive), its
`distance` is multiplied in place by the weekend factor when `start_day` is
Saturday or Sunday, by the weekday factor otherwise. -/
def applyRange (tr : TimeRange) (row : TimedTollRow) : TimedTollRow :=
  if tr.start ≤ row.start_time ∧ row.end_time ≤ tr.finish then
    if isWeekend row.start_day then
      { row with distance := row.distance * tr.weekend_factor }
    else
      { row with distance := row.distance * tr.weekday_factor }
  else
    row

/-- The cumulative effect of the three loop iterations on one row.  The
loop runs over brackets with the whole table inside, but each row is
touched independently, so per row it is this fold. -/
def adjustRow (row : TimedTollRow) : TimedTollRow :=
  time_ranges.foldl (fun r tr => applyRange tr r) row

/-- `calculate_time_based_toll_rates` of `task2.py`. -/
def calculate_time_based_toll_rates (df : List TimedTollRow) :
    List TimedTollRow :=
  df.map adjustRow

/-- Every column of a `TimedTollRow` except `distance`. -/
def frameOf (r : TimedTollRow) :
    Int × Int × ℚ × ℚ × ℚ × ℚ × ℚ × String × Nat × String × Nat :=
  (r.id_start, r.id_end, r.moto, r.car, r.rv, r.bus, r.truck,
    r.start_day, r.start_time, r.end_day, r.end_time)

/-! ## Helper lemmas -/

theorem observed_self (records : List SegmentRecord)
    (hd : ∀ r ∈ records, r.id_start ≠ r.id_end) (c : Int) :
    observed records c c = 0 := by
  have hfil : records.filter (fun r => r.id_start == c && r.id_end == c) = [] := by
    rw [List.filter_eq_nil_iff]
    intro r hr
    simp only [Bool.and_eq_true, beq_iff_eq, not_and]
    intro h1 h2
    exact hd r hr (h1.trans h2.symm)
  rw [observed, hfil]
  simp

theorem mem_insertSorted {a b : Int} {l : List Int} :
    b ∈ insertSorted a l ↔ b = a ∨ b ∈ l := by
  induction l with
  | nil => simp [insertSorted]
  | cons c l ih =>
    by_cases h : a ≤ c
    · simp [insertSorted, h]
    · simp [insertSorted, h, ih]
      tauto

theorem mem_sortIds {a : Int} {l : List Int} : a ∈ sortIds l ↔ a ∈ l := by
  induction l with
  | nil => simp [sortIds]
  | cons b l ih =>
    have hstep : sortIds (b :: l) = insertSorted b (sortIds l) := rfl
    rw [hstep, mem_insertSorted, ih]
    simp

theorem mem_idStarts {records : List SegmentRecord} {r : SegmentRecord}
    (hr : r ∈ records) : r.id_start ∈ idStarts records := by
  rw [idStarts, mem_sortIds, List.mem_dedup]
  exact List.mem_map.mpr ⟨r, hr, rfl⟩

theorem mem_idEnds {records : List SegmentRecord} {r : SegmentRecord}
    (hr : r ∈ records) : r.id_end ∈ idEnds records := by
  rw [idEnds, mem_sortIds, List.mem_dedup]
  exact List.mem_map.mpr ⟨r, hr, rfl⟩

/-! ## Claims -/

/-- C1 (counterexample).  The claim fails as stated: on
`[(1,1,2), (1,2,3), (2,1,4), (2,2,7)]` (id label sets both `{1,2}`, so the
call succeeds) the returned matrix has `M[1][2] = -7` but `M[2][1] = 3` —
the column-wise diagonal subtraction destroys symmetry, and neither value
is `observed(1,2) + observed(2,1) = 7`; on `[(1,2,10), (2,3,10)]` the call
raises instead of returning a matrix at all. -/
theorem C1_cex_not_always_symmetric :
    entryAt [⟨1, 1, 2⟩, ⟨1, 2, 3⟩, ⟨2, 1, 4⟩, ⟨2, 2, 7⟩] 1 2 = some (-7) ∧
    entryAt [⟨1, 1, 2⟩, ⟨1, 2, 3⟩, ⟨2, 1, 4⟩, ⟨2, 2, 7⟩] 2 1 = some 3 ∧
    (calculate_distance_matrix [⟨1, 2, 10⟩, ⟨2, 3, 10⟩]).isSome = false := by
  refine ⟨?_, ?_, by decide⟩ <;>
  · simp +decide [entryAt, calculate_distance_matrix, idStarts, idEnds, sortIds,
      insertSorted, observed, List.dedup, List.pwFilter, List.filter]
    norm_num

/-- C1 (amended).  For inputs whose `id_start` and `id_end` label sets
coincide and which contain no self-loop record (`id_start = id_end`),
`calculate_distance_matrix` returns a matrix that is symmetric, has a zero
diagonal, and has `M[a][b] = observed(a,b) + observed(b,a)` for `a ≠ b`. -/
theorem C1_matrix_symmetric_amended (records : List SegmentRecord)
    (hs : idStarts records = idEnds records)
    (hd : ∀ r ∈ records, r.id_start ≠ r.id_end) :
    ∃ M, calculate_distance_matrix records = some M ∧
      (∀ a b : Int, M.entry a b = M.entry b a) ∧
      (∀ a : Int, M.entry a a = 0) ∧
      (∀ a b : Int, a ≠ b →
        M.entry a b = observed records a b + observed records b a) := by
  rw [calculate_distance_matrix, if_pos hs]
  refine ⟨_, rfl, ?_, ?_, ?_⟩
  · intro a b
    show observed records a b + observed records b a - 2 * observed records b b =
      observed records b a + observed records a b - 2 * observed records a a
    rw [observed_self records hd a, observed_self records hd b]
    ring
  · intro a
    show observed records a a + observed records a a - 2 * observed records a a = 0
    ring
  · intro a b _
    show observed records a b + observed records b a - 2 * observed records b b =
      observed records a b + observed records b a
    rw [observed_self records hd b]
    ring

/-- C1 (witness): the amended theorem applied to `[(1,2,10), (2,1,5)]`. -/
theorem C1_matrix_symmetric_amended_witness :
    (idStarts [⟨1, 2, 10⟩, ⟨2, 1, 5⟩] = idEnds [⟨1, 2, 10⟩, ⟨2, 1, 5⟩] ∧
      ∀ r ∈ [(⟨1, 2, 10⟩ : SegmentRecord), ⟨2, 1, 5⟩], r.id_start ≠ r.id_end) ∧
    (∃ M, calculate_distance_matrix [⟨1, 2, 10⟩, ⟨2, 1, 5⟩] = some M ∧
      (∀ a b : Int, M.entry a b = M.entry b a) ∧
      (∀ a : Int, M.entry a a = 0) ∧
      (∀ a b : Int, a ≠ b →
        M.entry a b = observed [⟨1, 2, 10⟩, ⟨2, 1, 5⟩] a b +
          observed [⟨1, 2, 10⟩, ⟨2, 1, 5⟩] b a)) :=
  ⟨⟨by decide, by decide⟩,
    C1_matrix_symmetric_amended [⟨1, 2, 10⟩, ⟨2, 1, 5⟩] (by decide) (by decide)⟩

/-- C2.  On the input `[(1,2,10), (2,3,10)]` the pivot table has index
`{1, 2}` and columns `{2, 3}`; adding the transpose takes the label union
`{1, 2, 3}` and subtracting the length-2 diagonal array from the resulting
3-column frame raises a pandas `ValueError`, so no matrix (in particular
none with `M[1][2] = M[2][1] = 10`, `M[1][3] = 0`) is ever returned. -/
theorem C2_spec_scenario_raises :
    (calculate_distance_matrix [⟨1, 2, 10⟩, ⟨2, 3, 10⟩]).isSome = false := by
  decide

/-- C3 (counterexample).  The claim's own instance fails: for the single
record `(0,1,5)` the matrix construction raises (pivot index `{0}` versus
columns `{1}`), so the composition produces no rows at all — in particular
not the claimed two rows `(0,1,5)` and `(1,0,5)`. -/
theorem C3_cex_single_record_raises :
    (unrollBuild [⟨0, 1, 5⟩]).isSome = false := by
  decide

/-- C3 (amended).  When the `id_start` and `id_end` label sets coincide and
no record is a self-loop, `unroll_distance_matrix ∘
calculate_distance_matrix` succeeds, contains no row with
`id_start = id_end`, and reconstructs every pair present in the records
with the symmetric summed distance
`observed(a,b) + observed(b,a)`.  (The claim's single-record instance
holds once the reverse direction is present: see the witness, where
`[(0,1,5), (1,0,0)]` unrolls to exactly `[(0,1,5), (1,0,5)]`.) -/
theorem C3_unroll_build_amended (records : List SegmentRecord)
    (hs : idStarts records = idEnds records)
    (hd : ∀ r ∈ records, r.id_start ≠ r.id_end) :
    ∃ l, unrollBuild records = some l ∧
      (∀ row ∈ l, row.id_start ≠ row.id_end) ∧
      (∀ r ∈ records,
        SegmentRecord.mk r.id_start r.id_end
          (observed records r.id_start r.id_end +
            observed records r.id_end r.id_start) ∈ l) := by
  rw [unrollBuild, calculate_distance_matrix, if_pos hs]
  refine ⟨_, rfl, ?_, ?_⟩
  · intro row hrow
    have hmem := (List.mem_filter.mp hrow).2
    simpa [bne_iff_ne] using hmem
  · intro r hr
    apply List.mem_filter.mpr
    refine ⟨?_, ?_⟩
    · apply List.mem_flatMap.mpr
      refine ⟨r.id_start, mem_idStarts hr, ?_⟩
      apply List.mem_map.mpr
      refine ⟨r.id_end, ?_, ?_⟩
      · rw [hs]
        exact mem_idEnds hr
      · show SegmentRecord.mk r.id_start r.id_end
          (observed records r.id_start r.id_end +
            observed records r.id_end r.id_start -
            2 * observed records r.id_end r.id_end) = _
        rw [observed_self records hd r.id_end]
        norm_num
    · simpa [bne_iff_ne] using hd r hr

/-- C3 (witness): the amended theorem applied to `[(0,1,5), (1,0,0)]`,
together with the exact unrolled output for that input. -/
theorem C3_unroll_build_amended_witness :
    unrollBuild [⟨0, 1, 5⟩, ⟨1, 0, 0⟩] = some [⟨0, 1, 5⟩, ⟨1, 0, 5⟩] ∧
    (∃ l, unrollBuild [⟨0, 1, 5⟩, ⟨1, 0, 0⟩] = some l ∧
      (∀ row ∈ l, row.id_start ≠ row.id_end) ∧
      (∀ r ∈ [(⟨0, 1, 5⟩ : SegmentRecord), ⟨1, 0, 0⟩],
        SegmentRecord.mk r.id_start r.id_end
          (observed [⟨0, 1, 5⟩, ⟨1, 0, 0⟩] r.id_start r.id_end +
            observed [⟨0, 1, 5⟩, ⟨1, 0, 0⟩] r.id_end r.id_start) ∈ l)) :=
  ⟨by
    simp +decide [unrollBuild, unroll_distance_matrix, calculate_distance_matrix,
      idStarts, idEnds, sortIds, insertSorted, observed, List.dedup, List.pwFilter,
      List.filter, List.flatMap],
   C3_unroll_build_amended [⟨0, 1, 5⟩, ⟨1, 0, 0⟩] (by decide) (by decide)⟩

/-- C4 (counterexample).  No validation happens: on
`[(1,2,-5), (2,1,3)]`, whose first record has a negative distance,
`calculate_distance_matrix` succeeds and returns the matrix with
`M[1][2] = -5 + 3 = -2` instead of failing. -/
theorem C4_cex_negative_distance_accepted :
    (calculate_distance_matrix [⟨1, 2, -5⟩, ⟨2, 1, 3⟩]).isSome = true ∧
    entryAt [⟨1, 2, -5⟩, ⟨2, 1, 3⟩] 1 2 = some (-2) := by
  refine ⟨by decide, ?_⟩
  simp +decide [entryAt, calculate_distance_matrix, idStarts, idEnds, sortIds,
    insertSorted, observed, List.dedup, List.pwFilter, List.filter]
  norm_num

/-- C4 (amended).  `calculate_distance_matrix` inspects no distance value:
it succeeds on every input whose id label sets agree — negative distances
included — and only ever fails for the unrelated label-alignment reason. -/
theorem C4_no_validation_amended (records : List SegmentRecord)
    (hs : idStarts records = idEnds records) :
    ∃ M, calculate_distance_matrix records = some M := by
  rw [calculate_distance_matrix, if_pos hs]
  exact ⟨_, rfl⟩

/-- C4 (witness): the amended theorem applied to the negative-distance
input `[(1,2,-5), (2,1,3)]`. -/
theorem C4_no_validation_amended_witness :
    (idStarts [⟨1, 2, -5⟩, ⟨2, 1, 3⟩] = idEnds [⟨1, 2, -5⟩, ⟨2, 1, 3⟩]) ∧
    (∃ M, calculate_distance_matrix [⟨1, 2, -5⟩, ⟨2, 1, 3⟩] = some M) :=
  ⟨by decide, C4_no_validation_amended [⟨1, 2, -5⟩, ⟨2, 1, 3⟩] (by decide)⟩

/-- C5 (counterexample).  With reference id `5` absent from `id_start` of
`[(1,2,10)]`, the function raises nothing: the `NaN` mean makes both
threshold comparisons false and an empty table is returned. -/
theorem C5_cex_absent_reference_returns_empty :
    find_ids_within_ten_percentage_threshold [⟨1, 2, 10⟩] 5 = [] := by
  decide

/-- C5 (amended).  When the reference id never occurs as an `id_start`,
`find_ids_within_ten_percentage_threshold` silently returns the empty
table (the mean over the empty selection is `NaN` and every comparison
against it is false); no `NotFoundError` is raised. -/
theorem C5_absent_reference_amended (df : List SegmentRecord)
    (reference_id : Int) (h : ∀ r ∈ df, r.id_start ≠ reference_id) :
    find_ids_within_ten_percentage_threshold df reference_id = [] := by
  have hrr : ref_rows df reference_id = [] := by
    rw [ref_rows, List.filter_eq_nil_iff]
    intro r hr
    simpa using h r hr
  rw [find_ids_within_ten_percentage_threshold]
  simp [hrr, mean_distance, nanLow]

/-- C5 (witness): the amended theorem applied to `[(1,2,10)]` with
reference id `7`. -/
theorem C5_absent_reference_amended_witness :
    (∀ r ∈ [(⟨1, 2, 10⟩ : SegmentRecord)], r.id_start ≠ 7) ∧
    find_ids_within_ten_percentage_threshold [⟨1, 2, 10⟩] 7 = [] :=
  ⟨by decide, C5_absent_reference_amended [⟨1, 2, 10⟩] 7 (by decide)⟩

/-- C6.  When the reference id occurs as an `id_start`, the filter returns
exactly the input rows whose distance lies in the inclusive band
`[0.9 * ref_avg, 1.1 * ref_avg]`, `ref_avg` being the mean distance of the
rows with `id_start = reference_id`; the result is a sublist (hence a
subset) of the input. -/
theorem C6_threshold_filter (df : List SegmentRecord) (reference_id : Int)
    (h : ref_rows df reference_id ≠ []) :
    (find_ids_within_ten_percentage_threshold df reference_id).Sublist df ∧
    ∀ row, row ∈ find_ids_within_ten_percentage_threshold df reference_id ↔
      row ∈ df ∧ (9 / 10) * refAvg df reference_id ≤ row.distance ∧
        row.distance ≤ (11 / 10) * refAvg df reference_id := by
  have hm : mean_distance (ref_rows df reference_id) =
      some (refAvg df reference_id) := by
    rw [mean_distance, if_neg (by simpa [List.isEmpty_iff] using h)]
    rfl
  constructor
  · exact List.filter_sublist _
  · intro row
    rw [find_ids_within_ten_percentage_threshold]
    simp [hm, List.mem_filter, nanLow, nanHigh, and_assoc]

/-- C6 (witness): the theorem applied to
`[(1,2,10), (1,3,20), (2,3,16)]` with reference id `1`
(`ref_avg = 15`, band `[13.5, 16.5]`). -/
theorem C6_threshold_filter_witness :
    (ref_rows [⟨1, 2, 10⟩, ⟨1, 3, 20⟩, ⟨2, 3, 16⟩] 1 ≠ []) ∧
    ((find_ids_within_ten_percentage_threshold
        [⟨1, 2, 10⟩, ⟨1, 3, 20⟩, ⟨2, 3, 16⟩] 1).Sublist
      [⟨1, 2, 10⟩, ⟨1, 3, 20⟩, ⟨2, 3, 16⟩] ∧
    ∀ row, row ∈ find_ids_within_ten_percentage_threshold
        [⟨1, 2, 10⟩, ⟨1, 3, 20⟩, ⟨2, 3, 16⟩] 1 ↔
      row ∈ [(⟨1, 2, 10⟩ : SegmentRecord), ⟨1, 3, 20⟩, ⟨2, 3, 16⟩] ∧
        (9 / 10) * refAvg [⟨1, 2, 10⟩, ⟨1, 3, 20⟩, ⟨2, 3, 16⟩] 1 ≤ row.distance ∧
        row.distance ≤ (11 / 10) * refAvg [⟨1, 2, 10⟩, ⟨1, 3, 20⟩, ⟨2, 3, 16⟩] 1) :=
  ⟨by decide, C6_threshold_filter [⟨1, 2, 10⟩, ⟨1, 3, 20⟩, ⟨2, 3, 16⟩] 1 (by decide)⟩

/-- C7.  `calculate_toll_rate` keeps each row's ids and distance and sets
the five vehicle columns to the distance times the coefficients
`{moto: 0.8, car: 1.2, rv: 1.5, bus: 2.2, truck: 3.6}`; in particular a
row of distance `10` gets `car = 12`. -/
theorem C7_toll_coefficients (df : List SegmentRecord) (i : Nat) :
    ((calculate_toll_rate df)[i]?).map (fun t =>
        (t.id_start, t.id_end, t.distance, t.moto, t.car, t.rv, t.bus, t.truck)) =
      (df[i]?).map (fun r =>
        (r.id_start, r.id_end, r.distance,
          r.distance * (8 / 10), r.distance * (12 / 10), r.distance * (15 / 10),
          r.distance * (22 / 10), r.distance * (36 / 10))) ∧
    ((calculate_toll_rate [⟨1, 2, 10⟩])[0]?).map (fun t => t.car) = some 12 := by
  constructor
  · rw [calculate_toll_rate, List.getElem?_map]
    cases df[i]? <;> rfl
  · norm_num [calculate_toll_rate]

/-- A bracket whose mask a row fails leaves the row unchanged. -/
theorem applyRange_of_not_mask {tr : TimeRange} {row : TimedTollRow}
    (h : ¬(tr.start ≤ row.start_time ∧ row.end_time ≤ tr.finish)) :
    applyRange tr row = row := by
  rw [applyRange, if_neg h]

/-- Applying one time bracket never touches any column but `distance`. -/
theorem frame_applyRange (tr : TimeRange) (row : TimedTollRow) :
    frameOf (applyRange tr row) = frameOf row := by
  rw [applyRange]
  split_ifs <;> rfl

/-- A weekday row lying inside the morning bracket, distance `10`. -/
def mondayRow : TimedTollRow :=
  ⟨1, 2, 10, 8, 12, 15, 22, 36, "Monday", 32400, "Monday", 34200⟩

/-- The same row on a Saturday. -/
def saturdayRow : TimedTollRow :=
  ⟨1, 2, 10, 8, 12, 15, 22, 36, "Saturday", 32400, "Saturday", 34200⟩

/-- A row straddling the `10:00:00` boundary (09:00 to 11:00). -/
def crossingRow : TimedTollRow :=
  ⟨1, 2, 10, 8, 12, 15, 22, 36, "Monday", 32400, "Monday", 39600⟩

/-- A row sitting exactly on the shared `10:00:00` boundary. -/
def boundaryRow : TimedTollRow :=
  ⟨1, 2, 10, 8, 12, 15, 22, 36, "Monday", 36000, "Monday", 36000⟩

/-- C8.  A row spanning 09:00–09:30 on a Monday satisfies only the
00:00–10:00 bracket and its distance is scaled by exactly `0.8`; the same
span on a Saturday is scaled by exactly `0.7`; and a row whose span
satisfies no bracket mask is returned entirely unmodified. -/
theorem C8_single_bracket (df : List TimedTollRow) (i : Nat)
    (row : TimedTollRow) (hrow : df[i]? = some row) :
    ((row.start_time = 32400 ∧ row.end_time = 34200 ∧ row.start_day = "Monday") →
      ((calculate_time_based_toll_rates df)[i]?).map (fun r => r.distance) =
        some (row.distance * (8 / 10))) ∧
    ((row.start_time = 32400 ∧ row.end_time = 34200 ∧ row.start_day = "Saturday") →
      ((calculate_time_based_toll_rates df)[i]?).map (fun r => r.distance) =
        some (row.distance * (7 / 10))) ∧
    ((∀ tr ∈ time_ranges, ¬(tr.start ≤ row.start_time ∧ row.end_time ≤ tr.finish)) →
      (calculate_time_based_toll_rates df)[i]? = some row) := by
  have hmap : (calculate_time_based_toll_rates df)[i]? = some (adjustRow row) := by
    rw [calculate_time_based_toll_rates, List.getElem?_map, hrow]
    rfl
  refine ⟨?_, ?_, ?_⟩
  · rintro ⟨h1, h2, h3⟩
    rw [hmap]
    simp [adjustRow, time_ranges, applyRange, isWeekend, h1, h2, h3]
  · rintro ⟨h1, h2, h3⟩
    rw [hmap]
    simp [adjustRow, time_ranges, applyRange, isWeekend, h1, h2, h3]
  · intro h
    have h1 := h _ (List.mem_cons_self _ _)
    have h2 := h _ (List.mem_cons_of_mem _ (List.mem_cons_self _ _))
    have h3 := h _ (List.mem_cons_of_mem _ (List.mem_cons_of_mem _ (List.mem_cons_self _ _)))
    rw [hmap, adjustRow, time_ranges]
    simp only [List.foldl]
    rw [applyRange_of_not_mask h1, applyRange_of_not_mask h2,
      applyRange_of_not_mask h3]

/-- C8 (witness): the theorem evaluated on the three concrete rows. -/
theorem C8_single_bracket_witness :
    ((calculate_time_based_toll_rates [mondayRow])[0]?).map (fun r => r.distance) =
      some (10 * (8 / 10)) ∧
    ((calculate_time_based_toll_rates [saturdayRow])[0]?).map (fun r => r.distance) =
      some (10 * (7 / 10)) ∧
    (calculate_time_based_toll_rates [crossingRow])[0]? = some crossingRow :=
  ⟨(C8_single_bracket [mondayRow] 0 mondayRow rfl).1 ⟨rfl, rfl, rfl⟩,
   (C8_single_bracket [saturdayRow] 0 saturdayRow rfl).2.1 ⟨rfl, rfl, rfl⟩,
   (C8_single_bracket [crossingRow] 0 crossingRow rfl).2.2 (by decide)⟩

/-- C9.  A row whose interval sits exactly on the shared `10:00:00`
boundary (start and end both 10:00:00, weekday) satisfies the closed
masks of both the 00:00–10:00 and 10:00–18:00 brackets, and the loop
multiplies its distance by both factors in turn: the result is
`distance * 0.8 * 1.2`. -/
theorem C9_boundary_compounds (df : List TimedTollRow) (i : Nat)
    (row : TimedTollRow) (hrow : df[i]? = some row)
    (h1 : row.start_time = 36000) (h2 : row.end_time = 36000)
    (h3 : row.start_day = "Monday") :
    ((time_ranges.filter fun tr =>
        decide (tr.start ≤ row.start_time ∧ row.end_time ≤ tr.finish)).length = 2) ∧
    ((calculate_time_based_toll_rates df)[i]?).map (fun r => r.distance) =
      some (row.distance * (8 / 10) * (12 / 10)) := by
  have hmap : (calculate_time_based_toll_rates df)[i]? = some (adjustRow row) := by
    rw [calculate_time_based_toll_rates, List.getElem?_map, hrow]
    rfl
  constructor
  · simp [time_ranges, List.filter, h1, h2]
  · rw [hmap]
    simp [adjustRow, time_ranges, applyRange, isWeekend, h1, h2, h3]

/-- C9 (witness): the theorem evaluated on the concrete boundary row of
distance `10`, which comes out with distance `10 * 0.8 * 1.2 = 9.6`. -/
theorem C9_boundary_compounds_witness :
    ((time_ranges.filter fun tr =>
        decide (tr.start ≤ boundaryRow.start_time ∧
          boundaryRow.end_time ≤ tr.finish)).length = 2) ∧
    ((calculate_time_based_toll_rates [boundaryRow])[0]?).map (fun r => r.distance) =
      some (10 * (8 / 10) * (12 / 10)) :=
  C9_boundary_compounds [boundaryRow] 0 boundaryRow rfl rfl rfl rfl

/-- C10.  `calculate_time_based_toll_rates` can change only the `distance`
column: every other column of every row — ids, the five vehicle tolls and
the day/time columns — keeps its prior value; in particular the bracket
factor is never propagated to the previously computed vehicle tolls. -/
theorem C10_only_distance_modified (df : List TimedTollRow) (i : Nat) :
    ((calculate_time_based_toll_rates df)[i]?).map frameOf =
      (df[i]?).map frameOf := by
  have key : ∀ row : TimedTollRow, frameOf (adjustRow row) = frameOf row := by
    intro row
    rw [adjustRow, time_ranges]
    simp only [List.foldl]
    rw [frame_applyRange, frame_applyRange, frame_applyRange]
  rw [calculate_time_based_toll_rates, List.getElem?_map]
  cases df[i]? <;> simp [key]
